import Mathlib

/-!
Verification of the slot-based booking engine of the bimbo-lashes server
(apps/server/src): the availability engine, the booking state machine, payment
reconciliation and the sliding-window rate limiter, shallowly embedded in Lean.

Modelling conventions:
* SQLite tables are lists of rows; an UPDATE statement is a `List.map` whose
  function mutates exactly the rows matching the WHERE clause, a DELETE is a
  `List.filter`, an INSERT an append.
* TEXT columns are `String`; SQLite BINARY collation on them is compared via
  the lexicographic order on `String.data` (UTF-8 byte order and codepoint
  order coincide).
* Timestamps ("created_at", "now", rate-limiter instants) are whole seconds as
  `Nat`; chrono datetime arithmetic that happens outside the repository is
  abstracted into explicit numeric parameters.
* Calls to the external YooKassa gateway are represented by their outcome,
  passed in as a parameter, plus a list of emitted `GatewayCall` values so that
  theorems can speak about which gateway requests a handler issues.
-/

/-- Row of the services table (models.rs, struct Service). -/
structure Service where
  id : Int
  name : String
  description : String
  price : Int
  duration_min : Int
  is_active : Bool
  sort_order : Int
  service_type : String
deriving DecidableEq, Repr, Inhabited

/-- Row of the available_slots table (models.rs, struct AvailableSlot). -/
structure AvailableSlot where
  id : Int
  date : String
  start_time : String
  end_time : String
  is_booked : Bool
  booking_id : Option Int
deriving DecidableEq, Repr, Inhabited

/-- Row of the bookings table (models.rs, struct Booking). The datetime TEXT
columns created_at and cancelled_at are modelled as seconds (`Nat`). -/
structure Booking where
  id : Int
  service_id : Int
  slot_id : Int
  client_tg_id : Int
  client_username : Option String
  client_first_name : String
  status : String
  reminder_sent : Bool
  created_at : Nat
  cancelled_at : Option Nat
  date : Option String
  start_time : Option String
  end_time : Option String
  with_lower_lashes : Bool
  payment_status : String
  yookassa_payment_id : Option String
  prepaid_amount : Int
deriving DecidableEq, Repr, Inhabited

/-- Request body of POST /api/bookings (models.rs, CreateBookingRequest). -/
structure CreateBookingRequest where
  service_id : Int
  date : String
  start_time : String
  with_lower_lashes : Bool
deriving DecidableEq, Repr, Inhabited

/-- A bookable time block returned by the availability engine (models.rs,
TimeBlock). -/
structure TimeBlock where
  start_time : String
  end_time : String
deriving DecidableEq, Repr, Inhabited

/-- The relational store: the three tables the booking engine touches. -/
structure Db where
  services : List Service
  slots : List AvailableSlot
  bookings : List Booking
deriving DecidableEq, Repr, Inhabited

/-- HTTP error classes used by the handlers (StatusCode values). -/
inductive HttpError where
  | badRequest
  | unauthorized
  | notFound
  | conflict
  | internal
deriving DecidableEq, Repr

/-- Result of a handler: Ok payload or an HTTP error. -/
inductive HResult (α : Type) where
  | ok (val : α)
  | err (e : HttpError)
deriving DecidableEq, Repr

/-- A request issued to the external payment gateway. -/
inductive GatewayCall where
  | createPayment (booking_id : Int) (amount : Int)
  | refund (payment_id : String) (amount : Int)
deriving DecidableEq, Repr

/-- Refund information returned to the caller of a cancellation
(client.rs:751-764, the three Russian format strings). -/
inductive RefundInfo where
  | willRefund (amount : Int)
  | manualRefund
  | forfeited (amount : Int)
deriving DecidableEq, Repr

/-- PREPAID_AMOUNT constant (client.rs:18). -/
def PREPAID_AMOUNT : Int := 500

/-- PAYMENT_EXPIRY_MINUTES constant (payment.rs:11). -/
def PAYMENT_EXPIRY_MINUTES : Nat := 15

/-- slots_needed_for_duration (client.rs:53-55). The source computes
(duration_min as f64 / 60.0).ceil() as usize; for i64 durations in the
representable range this equals the integer ceiling, and the usize cast
saturates negative values to 0. -/
def slots_needed_for_duration (duration_min : Int) : Nat :=
  (duration_min.toNat + 59) / 60

/-- Rust str::split applied with the separator character, as used by
add_minutes_to_time (client.rs:892): split the character list on the
separator. -/
def rust_split_colon (s : String) : List String :=
  (s.data.splitOn ':').map String.mk

/-- Rust str::parse::<u32>().ok() restricted to plain digit strings (the inputs
occurring here); a non-digit or empty string fails to parse. -/
def parse_u32 (s : String) : Option Nat :=
  if s.data ≠ [] ∧ s.data.all (·.isDigit) then
    some (s.data.foldl (fun n c => n * 10 + (c.toNat - 48)) 0)
  else none

/-- Rust format with the 02 width specifier: left-pad the decimal
representation with zeros to width two. -/
def pad2 (n : Nat) : String :=
  if n < 10 then "0" ++ Nat.repr n else Nat.repr n

/-- add_minutes_to_time (client.rs:891-900): parse "HH:MM", add the minutes,
format with the hour clamped to at most 23. Malformed input (not exactly one
separator) is returned unchanged; unparsable parts default to 0. -/
def add_minutes_to_time (time : String) (minutes : Nat) : String :=
  let parts := rust_split_colon time
  if parts.length ≠ 2 then time
  else
    let hour := (parse_u32 (parts.getD 0 "")).getD 0
    let min := (parse_u32 (parts.getD 1 "")).getD 0
    let total := hour * 60 + min + minutes
    pad2 (Nat.min (total / 60) 23) ++ ":" ++ pad2 (total % 60)

/-- is_adjacent_to_booked (client.rs:873-877). -/
def is_adjacent_to_booked (block_start block_end : String) (all_slots : List AvailableSlot) : Bool :=
  all_slots.any (fun slot =>
    slot.is_booked && (block_start == slot.end_time || block_end == slot.start_time))

/-- The inner validity scan of find_bookable_blocks (client.rs:833-844): the
needed slots starting at index i are all free and pairwise adjacent
(previous end_time equals current start_time). -/
def validRun (slots : List AvailableSlot) (needed i : Nat) : Bool :=
  (List.range needed).all (fun j =>
    !(slots.getD (i + j) default).is_booked &&
    (j == 0 || (slots.getD (i + j - 1) default).end_time == (slots.getD (i + j) default).start_time))

/-- The candidate block starting at index i (client.rs:850-851). -/
def slotBlock (slots : List AvailableSlot) (needed i : Nat) : TimeBlock :=
  { start_time := (slots.getD i default).start_time
    end_time := (slots.getD (i + needed - 1) default).end_time }

/-- One iteration of the scan in find_bookable_blocks before the tight-mode
filtering (client.rs:827-848): skip booked or out-of-range starts, then check
the run. -/
def fbb_candidate (slots : List AvailableSlot) (needed i : Nat) : Option TimeBlock :=
  if (slots.getD i default).is_booked || decide (slots.length < i + needed) then none
  else if validRun slots needed i then some (slotBlock slots needed i) else none

/-- find_bookable_blocks (client.rs:819-870). In tight mode with at least one
booked slot present, a candidate block is kept only if adjacent to a booked
slot. -/
def find_bookable_blocks (slots : List AvailableSlot) (slots_needed : Nat) (is_tight : Bool) :
    List TimeBlock :=
  (List.range slots.length).filterMap (fun i =>
    match fbb_candidate slots slots_needed i with
    | none => none
    | some b =>
      if is_tight && slots.any (·.is_booked) then
        if is_adjacent_to_booked b.start_time b.end_time slots then some b else none
      else some b)

/-- free_booking_slots (client.rs:683-704): UPDATE available_slots SET
is_booked = 0, booking_id = NULL WHERE booking_id = ?, then the same by slot
id for backward compatibility. -/
def free_booking_slots (db : Db) (booking_id : Int) (slot_id : Int) : Db :=
  let db1 := { db with slots := db.slots.map (fun (s : AvailableSlot) =>
    if s.booking_id == some booking_id then { s with is_booked := false, booking_id := none } else s) }
  { db1 with slots := db1.slots.map (fun (s : AvailableSlot) =>
    if s.id == slot_id then { s with is_booked := false, booking_id := none } else s) }

/-- One conditional slot claim (client.rs:338-343): UPDATE available_slots SET
is_booked = 1, booking_id = ? WHERE id = ? AND is_booked = 0. Returns the
updated table together with the number of rows affected. -/
def claim_slot (slots : List AvailableSlot) (booking_id : Int) (slot_id : Int) :
    List AvailableSlot × Nat :=
  (slots.map (fun s =>
      if s.id == slot_id && !s.is_booked
      then { s with is_booked := true, booking_id := some booking_id } else s),
   (slots.filter (fun s => s.id == slot_id && !s.is_booked)).length)

/-- The slot-lock loop of create_booking (client.rs:336-354). The source takes
its error branch (rollback plus 409) only when the UPDATE query itself fails;
it never inspects the affected-row count, so a conditional claim that matches
zero rows is treated as success and the loop continues. In this model of a
reachable store the query never fails, hence the loop is pure state
threading. -/
def lock_slots (db : Db) (booking_id : Int) (loaded : List AvailableSlot) : Db :=
  loaded.foldl (fun d slot => { d with slots := (claim_slot d.slots booking_id slot.id).1 }) db

/-- rollback_booking (client.rs:771-784): set the booking to expired / payment
none and free every slot of the claim attempt by id. -/
def rollback_booking (db : Db) (booking_id : Int) (loaded : List AvailableSlot) : Db :=
  let db1 := { db with bookings := db.bookings.map (fun (b : Booking) =>
    if b.id == booking_id then { b with status := "expired", payment_status := "none" } else b) }
  loaded.foldl (fun d slot => { d with slots := d.slots.map (fun (s : AvailableSlot) =>
    if s.id == slot.id then { s with is_booked := false, booking_id := none } else s) }) db1

/-- The tail of create_booking after the loaded slots are known
(client.rs:308-419): INSERT the pending_payment booking, run the slot-lock
loop, then create the gateway payment; on gateway failure roll back and
return 500, on success persist the payment id and return the booking id with
the confirmation URL. The loaded slot list is a parameter because the source
reads it in a separate earlier query: between that read and the lock loop the
store may have been changed by a concurrent request. -/
def create_booking_resume (db : Db) (service : Service) (uid : Int) (uname : Option String)
    (ufn : String) (req : CreateBookingRequest) (now : Nat) (new_id : Int)
    (payment : Option (String × String)) (loaded : List AvailableSlot) :
    Db × HResult (Int × Option String) :=
  let first_slot_id := (loaded.headD default).id
  let newB : Booking :=
    { id := new_id, service_id := req.service_id, slot_id := first_slot_id,
      client_tg_id := uid, client_username := uname, client_first_name := ufn,
      status := "pending_payment", reminder_sent := false, created_at := now,
      cancelled_at := none, date := some req.date, start_time := some req.start_time,
      end_time := some (add_minutes_to_time req.start_time service.duration_min.toNat),
      with_lower_lashes := req.with_lower_lashes, payment_status := "pending",
      yookassa_payment_id := none, prepaid_amount := PREPAID_AMOUNT }
  let db1 := { db with bookings := db.bookings ++ [newB] }
  let db2 := lock_slots db1 new_id loaded
  match payment with
  | some (payment_id, url) =>
      ({ db2 with bookings := db2.bookings.map (fun (b : Booking) =>
          if b.id == new_id then { b with yookassa_payment_id := some payment_id } else b) },
       .ok (new_id, some url))
  | none => (rollback_booking db2 new_id loaded, .err .internal)

/-- create_booking (client.rs:222-419), sequential run. Parameters abstract the
pieces outside the repository: chrono_date_ok is the chrono date-format
validation, new_id the id assigned by the INSERT, payment the outcome of the
YooKassa payment creation. The slot-load query filters slots of the date
whose start_time is at least the requested start and whose end_time is at
most the computed end (BINARY collation, byte order). -/
def create_booking (chrono_date_ok : String → Bool) (db : Db) (uid : Int) (uname : Option String)
    (ufn : String) (req : CreateBookingRequest) (now : Nat) (new_id : Int)
    (payment : Option (String × String)) : Db × HResult (Int × Option String) :=
  if !(chrono_date_ok req.date) then (db, .err .badRequest)
  else if !(req.start_time.utf8ByteSize == 5 && req.start_time.data.contains ':') then
    (db, .err .badRequest)
  else
    match db.services.find? (fun s => s.id == req.service_id && s.is_active) with
    | none => (db, .err .notFound)
    | some service =>
      let end_time := add_minutes_to_time req.start_time service.duration_min.toNat
      let loaded := db.slots.filter (fun s =>
        s.date == req.date && decide (req.start_time.data ≤ s.start_time.data)
          && decide (s.end_time.data ≤ end_time.data))
      if loaded.length < slots_needed_for_duration service.duration_min then
        (db, .err .notFound)
      else if loaded.any (·.is_booked) then (db, .err .conflict)
      else create_booking_resume db service uid uname ufn req now new_id payment loaded

/-- process_refund_if_needed (client.rs:709-766). hours_until is the chrono
difference between the appointment datetime and now, in whole hours (999 when
the stored datetime fails to parse); refund_ok the outcome of the gateway
refund call. Emits the refund gateway call it issues. -/
def process_refund_if_needed (db : Db) (booking : Booking) (admin_override : Bool)
    (hours_until : Int) (refund_ok : Bool) : Db × Option RefundInfo × List GatewayCall :=
  if booking.payment_status != "paid" then (db, none, [])
  else if admin_override || decide (24 < hours_until) then
    match booking.yookassa_payment_id with
    | some pid =>
      if refund_ok then
        ({ db with bookings := db.bookings.map (fun (b : Booking) =>
            if b.id == booking.id then { b with payment_status := "refunded" } else b) },
         some (.willRefund booking.prepaid_amount), [.refund pid booking.prepaid_amount])
      else (db, some .manualRefund, [.refund pid booking.prepaid_amount])
    | none => (db, none, [])
  else (db, some (.forfeited booking.prepaid_amount), [])

/-- cancel_booking, client side (client.rs:451-531): the booking must belong to
the caller and be confirmed or pending_payment; refund logic runs first, then
the status flips to cancelled and all owned slots are freed. -/
def cancel_booking (db : Db) (uid : Int) (id : Int) (now : Nat) (hours_until : Int)
    (refund_ok : Bool) : Db × HResult Unit × List GatewayCall :=
  match db.bookings.find? (fun b =>
      b.id == id && b.client_tg_id == uid
        && (b.status == "confirmed" || b.status == "pending_payment")) with
  | none => (db, .err .notFound, [])
  | some booking =>
    let pr := process_refund_if_needed db booking false hours_until refund_ok
    let db2 := { pr.1 with bookings := pr.1.bookings.map (fun (b : Booking) =>
      if b.id == id then { b with status := "cancelled", cancelled_at := some now } else b) }
    (free_booking_slots db2 id booking.slot_id, .ok (), pr.2.2)

/-- cancel_booking, admin side (admin.rs:372-429): requires a confirmed
booking; flips it to cancelled, frees its slots by booking id and by slot id,
and notifies the client. No gateway interaction appears anywhere in the
handler. -/
def admin_cancel_booking (db : Db) (id : Int) (now : Nat) :
    Db × HResult Unit × List GatewayCall :=
  match db.bookings.find? (fun b => b.id == id && b.status == "confirmed") with
  | none => (db, .err .notFound, [])
  | some booking =>
    let db1 := { db with bookings := db.bookings.map (fun (b : Booking) =>
      if b.id == id then { b with status := "cancelled", cancelled_at := some now } else b) }
    let db2 := { db1 with slots := db1.slots.map (fun (s : AvailableSlot) =>
      if s.booking_id == some id then { s with is_booked := false, booking_id := none } else s) }
    let db3 := { db2 with slots := db2.slots.map (fun (s : AvailableSlot) =>
      if s.id == booking.slot_id then { s with is_booked := false, booking_id := none } else s) }
    (db3, .ok (), [])

/-- Store effect of payment_webhook (payment.rs:152-269) for a given event name
and extracted booking id. payment.succeeded updates the booking to confirmed
and paid guarded by status = pending_payment; payment.canceled updates it to
expired and none under the same guard and then frees the slots owned by the
booking id with no guard; every other event, and a missing booking id, is
acknowledged without action. -/
def payment_webhook_db (db : Db) (event : String) (booking_id : Option Int) : Db :=
  match booking_id with
  | none => db
  | some bid =>
    if event == "payment.succeeded" then
      { db with bookings := db.bookings.map (fun (b : Booking) =>
          if b.id == bid && b.status == "pending_payment"
          then { b with status := "confirmed", payment_status := "paid" } else b) }
    else if event == "payment.canceled" then
      let db1 := { db with bookings := db.bookings.map (fun (b : Booking) =>
        if b.id == bid && b.status == "pending_payment"
        then { b with status := "expired", payment_status := "none" } else b) }
      { db1 with slots := db1.slots.map (fun (s : AvailableSlot) =>
          if s.booking_id == some bid
          then { s with is_booked := false, booking_id := none } else s) }
    else db

/-- expire_pending_payments (payment.rs:272-320): collect the ids of
pending_payment bookings whose created_at lies more than the expiry timeout in
the past, then for each id expire the booking (guarded by status still
pending_payment) and free the slots owned by it. -/
def expire_pending_payments (db : Db) (now : Nat) : Db :=
  (((db.bookings.filter (fun b =>
    b.status == "pending_payment"
      && decide (b.created_at + PAYMENT_EXPIRY_MINUTES * 60 < now))).map (·.id)).foldl (fun d bid =>
    let d1 := { d with bookings := d.bookings.map (fun (b : Booking) =>
      if b.id == bid && b.status == "pending_payment"
      then { b with status := "expired", payment_status := "none" } else b) }
    { d1 with slots := d1.slots.map (fun (s : AvailableSlot) =>
      if s.booking_id == some bid
      then { s with is_booked := false, booking_id := none } else s) }) db)

/-- create_slots (admin.rs:166-197): INSERT one row per requested time pair.
The INSERT names only date, start_time and end_time; the remaining columns
take the schema defaults, which the migration SQL (not under src/) sets per
the spec to a free, unowned slot. Row ids are assigned by the store,
modelled as next_id, next_id + 1, and so on. -/
def create_slots_insert (db : Db) (date : String) (ts : List (String × String)) (next_id : Int) :
    Db :=
  { db with slots := db.slots ++ ts.enum.map (fun p =>
      { id := next_id + (p.1 : Int), date := date, start_time := p.2.1, end_time := p.2.2,
        is_booked := false, booking_id := none }) }

/-- delete_slot (admin.rs:257-288): refuse to delete a booked slot with 409,
otherwise DELETE the row. -/
def delete_slot (db : Db) (id : Int) : Db × HResult Unit :=
  match db.slots.find? (fun s => s.id == id) with
  | none => (db, .err .notFound)
  | some slot =>
    if slot.is_booked then (db, .err .conflict)
    else ({ db with slots := db.slots.filter (fun s => !(s.id == id)) }, .ok ())

/-- RateLimitConfig (rate_limit.rs:22-27); the window is whole seconds. -/
structure RateLimitConfig where
  max_requests : Nat
  window : Nat
deriving DecidableEq, Repr

/-- RateLimiter::check for one (tier, ip) entry (rate_limit.rs:56-79): evict
timestamps at or before now minus the window, reject with a retry-after of at
least one second when the survivors reach the limit (the source indexes
entry[0], in bounds whenever max_requests is at least 1), otherwise record now
and admit. Instants are whole seconds; the saturating duration and the
as_secs truncation are exact in this granularity. The second component is
none on admission and some retry_after on rejection. -/
def rl_check (cfg : RateLimitConfig) (now : Nat) (entry : List Nat) : List Nat × Option Nat :=
  let window_start := now - cfg.window
  let kept := entry.filter (fun t => decide (window_start < t))
  if cfg.max_requests ≤ kept.length then
    (kept, some (Nat.max 1 (kept.headD 0 + cfg.window - now)))
  else (kept ++ [now], none)

/-- The slot-store invariant: a slot is flagged booked exactly when it carries
an owning booking id. -/
def SlotInvariant (db : Db) : Prop :=
  ∀ s ∈ db.slots, s.is_booked = s.booking_id.isSome

-- ── Concrete stores used by the closed theorems and witnesses ──

/-- A 60-minute active main service. -/
def exService : Service :=
  { id := 1, name := "Correction", description := "", price := 1500, duration_min := 60,
    is_active := true, sort_order := 1, service_type := "main" }

/-- The slot as the losing request loaded it: still free. -/
def raceLoadedSlot : AvailableSlot :=
  { id := 1, date := "2026-03-01", start_time := "10:00", end_time := "11:00",
    is_booked := false, booking_id := none }

/-- The concurrent booking that won the race for slot 1. -/
def raceWinner : Booking :=
  { id := 99, service_id := 1, slot_id := 1, client_tg_id := 77, client_username := none,
    client_first_name := "W", status := "pending_payment", reminder_sent := false,
    created_at := 900, cancelled_at := none, date := some "2026-03-01",
    start_time := some "10:00", end_time := some "11:00", with_lower_lashes := false,
    payment_status := "pending", yookassa_payment_id := none, prepaid_amount := 500 }

/-- The store as it stands when the losing request reaches its slot-lock loop:
slot 1 was claimed by booking 99 after the loser loaded it as free. -/
def raceDb : Db :=
  { services := [exService],
    slots := [{ raceLoadedSlot with is_booked := true, booking_id := some 99 }],
    bookings := [raceWinner] }

/-- The losing request. -/
def raceReq : CreateBookingRequest :=
  { service_id := 1, date := "2026-03-01", start_time := "10:00", with_lower_lashes := false }

/-- A confirmed booking that has been paid, with a stored gateway payment id. -/
def adminPaidBooking : Booking :=
  { id := 1, service_id := 1, slot_id := 5, client_tg_id := 10, client_username := none,
    client_first_name := "C", status := "confirmed", reminder_sent := false, created_at := 0,
    cancelled_at := none, date := some "2026-03-05", start_time := some "12:00",
    end_time := some "13:00", with_lower_lashes := false, payment_status := "paid",
    yookassa_payment_id := some "pay_1", prepaid_amount := 500 }

/-- Store holding the paid confirmed booking and the slot it owns. -/
def adminDb : Db :=
  { services := [exService],
    slots := [{ id := 5, date := "2026-03-05", start_time := "12:00", end_time := "13:00",
                is_booked := true, booking_id := some 1 }],
    bookings := [adminPaidBooking] }

/-- Store with a confirmed (not pending_payment) booking 1 owning slot 3. -/
def canceledDb : Db :=
  { services := [],
    slots := [{ id := 3, date := "2026-03-02", start_time := "10:00", end_time := "11:00",
                is_booked := true, booking_id := some 1 }],
    bookings := [{ adminPaidBooking with slot_id := 3 }] }

/-- Store with a confirmed booking 4 owning slot 8, for the frame witness. -/
def frameDb : Db :=
  { services := [],
    slots := [{ id := 8, date := "2026-03-02", start_time := "14:00", end_time := "15:00",
                is_booked := true, booking_id := some 4 },
              { id := 9, date := "2026-03-02", start_time := "15:00", end_time := "16:00",
                is_booked := false, booking_id := none }],
    bookings := [{ adminPaidBooking with id := 4, slot_id := 8 }] }

-- ── Theorems ──

/-- C1: the claim asserts that a conditional slot claim affecting zero rows
(slot no longer free) triggers the compensating rollback and a 409. At the
concrete raced store the conditional UPDATE affects zero rows, yet the
request completes successfully: the response is Ok with a checkout URL, the
raced slot keeps its other owner, and the freshly inserted booking is left in
pending_payment / pending rather than expired / none — no rollback, no 409. -/
theorem create_booking_lost_race_ignored :
    (claim_slot raceDb.slots 2 1).2 = 0
  ∧ (create_booking_resume raceDb exService 10 none "U" raceReq 1000 2
       (some ("pay_2", "https://pay")) [raceLoadedSlot]).2
      = HResult.ok (2, some "https://pay")
  ∧ (create_booking_resume raceDb exService 10 none "U" raceReq 1000 2
       (some ("pay_2", "https://pay")) [raceLoadedSlot]).1.slots = raceDb.slots
  ∧ ((create_booking_resume raceDb exService 10 none "U" raceReq 1000 2
       (some ("pay_2", "https://pay")) [raceLoadedSlot]).1.bookings.map
        (fun b => (b.id, b.status, b.payment_status)))
      = [(99, "pending_payment", "pending"), (2, "pending_payment", "pending")] := by
  decide

/-- C3: the claim asserts that an operator cancellation of a paid booking
attempts a gateway refund. At a concrete store holding a paid confirmed
booking, the admin cancel handler issues no gateway call at all and leaves
payment_status at "paid" while cancelling the booking. -/
theorem admin_cancel_paid_booking_no_refund :
    adminDb.bookings.map (·.payment_status) = ["paid"]
  ∧ (admin_cancel_booking adminDb 1 5000).2.2 = ([] : List GatewayCall)
  ∧ ((admin_cancel_booking adminDb 1 5000).1.bookings.map
      (fun b => (b.status, b.payment_status))) = [("cancelled", "paid")]
  ∧ (admin_cancel_booking adminDb 1 5000).2.1 = HResult.ok () := by
  decide

/-- C4: processing the same payment.succeeded webhook twice for one booking
yields the same store as processing it once — the update is guarded by
status = pending_payment, so the second delivery finds the booking already
confirmed and changes nothing. -/
theorem payment_succeeded_idempotent (db : Db) (bid : Int) :
    payment_webhook_db (payment_webhook_db db "payment.succeeded" (some bid))
        "payment.succeeded" (some bid)
      = payment_webhook_db db "payment.succeeded" (some bid) := by
  unfold payment_webhook_db
  simp only [beq_self_eq_true, if_true, List.map_map]
  congr 1
  apply List.map_congr_left
  intro b _
  by_cases h1 : b.id == bid
  · by_cases h2 : b.status == "pending_payment" <;>
      simp [Function.comp, h1, h2]
  · simp [Function.comp, h1]

/-- C5 counterexample: the claim asserts the pending_payment guard also covers
the slot release of payment.canceled. At a concrete store whose booking 1 is
confirmed (not pending_payment) and owns slot 3, processing payment.canceled
leaves the booking row unchanged but releases the slot, so the store is not
left unchanged as claimed. -/
theorem payment_canceled_guard_counterexample :
    ((payment_webhook_db canceledDb "payment.canceled" (some 1)).bookings
      = canceledDb.bookings)
  ∧ ((payment_webhook_db canceledDb "payment.canceled" (some 1)).slots
      = [{ id := 3, date := "2026-03-02", start_time := "10:00", end_time := "11:00",
           is_booked := false, booking_id := none }])
  ∧ payment_webhook_db canceledDb "payment.canceled" (some 1) ≠ canceledDb := by
  decide

/-- C5 amended: for a booking that is not pending_payment, payment.canceled
leaves the booking row unchanged, but the slot release is outside the guard:
every slot owned by that booking id is still released (is_booked cleared,
booking_id nulled), while all other slots are untouched. -/
theorem payment_canceled_nonpending_frame (db : Db) (bid : Int)
    (h : ∀ b ∈ db.bookings, b.id = bid → b.status ≠ "pending_payment") :
    ((payment_webhook_db db "payment.canceled" (some bid)).bookings = db.bookings)
  ∧ ((payment_webhook_db db "payment.canceled" (some bid)).slots
      = db.slots.map (fun s => if s.booking_id == some bid
          then { s with is_booked := false, booking_id := none } else s)) := by
  have hev : (("payment.canceled" : String) == "payment.succeeded") = false := by decide
  have hev2 : (("payment.canceled" : String) == "payment.canceled") = true := by decide
  unfold payment_webhook_db
  simp only [hev, hev2, Bool.false_eq_true, if_false, if_true]
  refine ⟨?_, trivial⟩
  have : ∀ b ∈ db.bookings,
      (if b.id == bid && b.status == "pending_payment"
       then { b with status := "expired", payment_status := "none" } else b) = b := by
    intro b hb
    by_cases h1 : b.id = bid
    · have : (b.status == "pending_payment") = false := by
        have := h b hb h1
        simpa [beq_iff_eq] using this
      simp [this]
    · have : (b.id == bid) = false := by simpa [beq_iff_eq] using h1
      simp [this]
  calc db.bookings.map _ = db.bookings.map id := List.map_congr_left this
    _ = db.bookings := List.map_id db.bookings

/-- Witness for the amended C5 theorem at a concrete store: booking 4 is
confirmed, so the booking table is unchanged while slot 8 (owned by 4) is
released and slot 9 is untouched. -/
theorem payment_canceled_nonpending_frame_witness :
    ((payment_webhook_db frameDb "payment.canceled" (some 4)).bookings = frameDb.bookings)
  ∧ ((payment_webhook_db frameDb "payment.canceled" (some 4)).slots
      = frameDb.slots.map (fun s => if s.booking_id == some 4
          then { s with is_booked := false, booking_id := none } else s)) :=
  payment_canceled_nonpending_frame frameDb 4 (by decide)

/-- Filtering the result of a filterMap is the filterMap with the test applied
to each produced element. -/
theorem filter_filterMap_eq {α β : Type} (f : α → Option β) (p : β → Bool) (l : List α) :
    (l.filterMap f).filter p = l.filterMap (fun a =>
      match f a with
      | some b => if p b then some b else none
      | none => none) := by
  induction l with
  | nil => rfl
  | cons a l ih =>
    cases h : f a with
    | none => simp [List.filterMap_cons, h, ih]
    | some b =>
      by_cases hp : p b <;> simp [List.filterMap_cons, h, ih, List.filter_cons, hp]

/-- C7: with tight mode on, find_bookable_blocks returns exactly the qualifying
runs of the non-restricted scan whose start coincides with a booked slot end
or whose end coincides with a booked slot start, provided some slot of the
date is booked; with no booked slot, tight mode returns the same blocks as
the non-restricted scan. -/
theorem find_bookable_blocks_tight_spec (slots : List AvailableSlot) (n : Nat) :
    find_bookable_blocks slots n true =
      if slots.any (·.is_booked) then
        (find_bookable_blocks slots n false).filter
          (fun b => is_adjacent_to_booked b.start_time b.end_time slots)
      else find_bookable_blocks slots n false := by
  unfold find_bookable_blocks
  cases h : slots.any (·.is_booked) with
  | false => simp [h]
  | true =>
    simp only [h, Bool.and_true, Bool.true_and, Bool.false_and, if_true, if_false]
    rw [filter_filterMap_eq]
    apply List.filterMap_congr
    intro i _
    cases hc : fbb_candidate slots n i with
    | none => simp
    | some b => simp

/-- A tier configuration with the shape of the real tiers (max_requests at
least 1). -/
def rlCfg : RateLimitConfig := { max_requests := 2, window := 60 }

/-- Unfolding equation for rl_check. -/
theorem rl_check_eq (cfg : RateLimitConfig) (now : Nat) (entry : List Nat) :
    rl_check cfg now entry =
      if cfg.max_requests ≤ (entry.filter (fun t => decide (now - cfg.window < t))).length
      then (entry.filter (fun t => decide (now - cfg.window < t)),
            some (Nat.max 1 ((entry.filter (fun t => decide (now - cfg.window < t))).headD 0
                    + cfg.window - now)))
      else (entry.filter (fun t => decide (now - cfg.window < t)) ++ [now], none) := rfl

/-- In a nonempty ascending list the first element is minimal. -/
theorem sorted_headD_le {l : List Nat} (h : List.Sorted (· ≤ ·) l) :
    ∀ t ∈ l, l.headD 0 ≤ t := by
  cases l with
  | nil => intro t ht; cases ht
  | cons a l =>
    intro t ht
    rcases List.mem_cons.mp ht with rfl | ht
    · exact le_refl t
    · exact List.rel_of_sorted_cons h t ht

/-- C6: for a fixed (tier, ip) entry holding the previously admitted
timestamps in ascending order, a check (i) admits exactly when fewer than
max_requests of them lie inside the trailing window, (ii) on rejection
returns a retry-after equal to the seconds until the oldest in-window
timestamp (minimal among survivors) exits the window, never less than one,
(iii) admits again once every recorded timestamp has left the window, and
(iv) on admission records now after the surviving timestamps. -/
theorem rl_check_spec (cfg : RateLimitConfig) (now : Nat) (entry : List Nat)
    (hmax : 1 ≤ cfg.max_requests) (hw : cfg.window ≤ now)
    (hs : List.Sorted (· ≤ ·) entry) :
    ((rl_check cfg now entry).2 = none
        ↔ (entry.filter (fun t => decide (now - cfg.window < t))).length < cfg.max_requests)
  ∧ (∀ r, (rl_check cfg now entry).2 = some r →
      r = Nat.max 1 ((entry.filter (fun t => decide (now - cfg.window < t))).headD 0
            + cfg.window - now)
      ∧ (∀ t ∈ entry.filter (fun t => decide (now - cfg.window < t)),
          (entry.filter (fun t => decide (now - cfg.window < t))).headD 0 ≤ t)
      ∧ 1 ≤ r)
  ∧ ((∀ t ∈ entry, t ≤ now - cfg.window) → (rl_check cfg now entry).2 = none)
  ∧ ((rl_check cfg now entry).2 = none →
      (rl_check cfg now entry).1
        = entry.filter (fun t => decide (now - cfg.window < t)) ++ [now]) := by
  have hks : List.Sorted (· ≤ ·) (entry.filter (fun t => decide (now - cfg.window < t))) :=
    hs.filter _
  rcases Nat.lt_or_ge (entry.filter (fun t => decide (now - cfg.window < t))).length
      cfg.max_requests with hlt | hge
  · have hr : rl_check cfg now entry
        = (entry.filter (fun t => decide (now - cfg.window < t)) ++ [now], none) := by
      rw [rl_check_eq]; exact if_neg (by omega)
    refine ⟨?_, ?_, ?_, ?_⟩
    · rw [hr]; exact iff_of_true rfl hlt
    · intro r hrr; rw [hr] at hrr; cases hrr
    · intro _; rw [hr]
    · intro _; rw [hr]
  · have hr : rl_check cfg now entry
        = (entry.filter (fun t => decide (now - cfg.window < t)),
           some (Nat.max 1 ((entry.filter (fun t => decide (now - cfg.window < t))).headD 0
                   + cfg.window - now))) := by
      rw [rl_check_eq]; exact if_pos hge
    refine ⟨?_, ?_, ?_, ?_⟩
    · rw [hr]; exact iff_of_false (by simp) (by omega)
    · intro r hrr
      rw [hr] at hrr
      have hreq : r = Nat.max 1 ((entry.filter (fun t => decide (now - cfg.window < t))).headD 0
          + cfg.window - now) := (Option.some_inj.mp hrr).symm
      refine ⟨hreq, sorted_headD_le hks, ?_⟩
      rw [hreq]; exact Nat.le_max_left 1 _
    · intro hall
      exfalso
      have hnil : entry.filter (fun t => decide (now - cfg.window < t)) = [] := by
        apply List.filter_eq_nil_iff.mpr
        intro t ht
        simpa using Nat.not_lt.mpr (hall t ht)
      rw [hnil] at hge
      simp at hge
      omega
    · intro hnone; rw [hr] at hnone; cases hnone

/-- Witness for the rate limiter theorem at a concrete entry: two admitted
timestamps of which one is still in the window, limit 2, so the check at
second 100 admits. -/
theorem rl_check_spec_witness :
    ((rl_check rlCfg 100 [30, 80]).2 = none
      ↔ (([30, 80].filter (fun t => decide (100 - rlCfg.window < t))).length
          < rlCfg.max_requests)) :=
  (rl_check_spec rlCfg 100 [30, 80] (by decide) (by decide) (by decide)).1

/-- C8: once the request passes validation and resolves an active service,
create_booking answers 404 when the slot-load query returns fewer than
slots_needed rows, and 409 when any returned row is already booked; in both
cases the store is returned unchanged (no booking inserted, no slot
modified). -/
theorem create_booking_404_409 (chrono_date_ok : String → Bool) (db : Db) (uid : Int)
    (uname : Option String) (ufn : String) (req : CreateBookingRequest) (now : Nat)
    (new_id : Int) (payment : Option (String × String)) (svc : Service)
    (hdate : chrono_date_ok req.date = true)
    (htime : (req.start_time.utf8ByteSize == 5 && req.start_time.data.contains ':') = true)
    (hsvc : db.services.find? (fun s => s.id == req.service_id && s.is_active) = some svc) :
    ((db.slots.filter (fun s =>
        s.date == req.date && decide (req.start_time.data ≤ s.start_time.data)
          && decide (s.end_time.data ≤ (add_minutes_to_time req.start_time
                svc.duration_min.toNat).data))).length
        < slots_needed_for_duration svc.duration_min →
      create_booking chrono_date_ok db uid uname ufn req now new_id payment
        = (db, .err .notFound))
  ∧ (¬ (db.slots.filter (fun s =>
        s.date == req.date && decide (req.start_time.data ≤ s.start_time.data)
          && decide (s.end_time.data ≤ (add_minutes_to_time req.start_time
                svc.duration_min.toNat).data))).length
        < slots_needed_for_duration svc.duration_min →
      (db.slots.filter (fun s =>
        s.date == req.date && decide (req.start_time.data ≤ s.start_time.data)
          && decide (s.end_time.data ≤ (add_minutes_to_time req.start_time
                svc.duration_min.toNat).data))).any (·.is_booked) = true →
      create_booking chrono_date_ok db uid uname ufn req now new_id payment
        = (db, .err .conflict)) := by
  unfold create_booking
  rw [hdate, htime, hsvc]
  constructor
  · intro hlen
    simp only [Bool.not_true, Bool.false_eq_true, if_false, if_pos hlen]
  · intro hlen hbooked
    simp only [Bool.not_true, Bool.false_eq_true, if_false, if_neg hlen, if_pos hbooked]

/-- A store with a single free slot on the example date. -/
def shortDb : Db :=
  { services := [{ exService with duration_min := 120 }],
    slots := [{ id := 1, date := "2026-03-01", start_time := "10:00", end_time := "11:00",
                is_booked := false, booking_id := none }],
    bookings := [] }

/-- Witness for the 404 branch: the 120-minute service needs two slots but only
one row lies in the requested interval, so the request fails with 404 and the
store is unchanged. -/
theorem create_booking_404_409_witness :
    create_booking (fun _ => true) shortDb 10 none "U" raceReq 1000 7 none
      = (shortDb, .err .notFound) :=
  (create_booking_404_409 (fun _ => true) shortDb 10 none "U" raceReq 1000 7 none
    { exService with duration_min := 120 } (by decide) (by decide) (by decide)).1 (by decide)

/-- pad2 of a two-digit number never contains the time separator. -/
theorem pad2_no_colon : ∀ n : Nat, n < 100 → ':' ∉ (pad2 n).data := by decide

/-- parse_u32 inverts pad2 below 100. -/
theorem parse_u32_pad2 : ∀ n : Nat, n < 100 → parse_u32 (pad2 n) = some n := by decide

/-- Splitting a well-formed "HH:MM" string on the separator yields exactly the
two components. -/
theorem rust_split_colon_pad2 (h m : Nat) (hh : h < 100) (hm : m < 100) :
    rust_split_colon (pad2 h ++ ":" ++ pad2 m) = [pad2 h, pad2 m] := by
  unfold rust_split_colon
  have hdata : (pad2 h ++ ":" ++ pad2 m).data = (pad2 h).data ++ ':' :: (pad2 m).data := by
    simp [String.data_append]
  rw [hdata]
  show (((pad2 h).data ++ ':' :: (pad2 m).data).splitOnP (· == ':')).map String.mk = _
  rw [List.splitOnP_first _ _ (fun x hx => by
        intro hxc
        have hxeq : x = ':' := by simpa using hxc
        exact pad2_no_colon h hh (hxeq ▸ hx)) ':' (by simp),
      List.splitOnP_eq_single _ _ (fun x hx => by
        intro hxc
        have hxeq : x = ':' := by simpa using hxc
        exact pad2_no_colon m hm (hxeq ▸ hx))]
  rfl

/-- Unfolded form of add_minutes_to_time on a well-formed input. -/
theorem add_minutes_pad2 (h m d : Nat) (hh : h < 24) (hm : m < 60) :
    add_minutes_to_time (pad2 h ++ ":" ++ pad2 m) d
      = pad2 (Nat.min ((h * 60 + m + d) / 60) 23) ++ ":" ++ pad2 ((h * 60 + m + d) % 60) := by
  unfold add_minutes_to_time
  rw [rust_split_colon_pad2 h m (by omega) (by omega)]
  simp [parse_u32_pad2 h (by omega), parse_u32_pad2 m (by omega)]

/-- Store whose only slot is the last hour of the day, with well-formed slot
times. -/
def lateDb : Db :=
  { services := [exService],
    slots := [{ id := 1, date := "2026-03-01", start_time := "23:00", end_time := "24:00",
                is_booked := false, booking_id := none }],
    bookings := [] }

/-- Request for the last hour of the day. -/
def lateReq : CreateBookingRequest :=
  { service_id := 1, date := "2026-03-01", start_time := "23:00", with_lower_lashes := false }

/-- C10: add_minutes_to_time clamps the hour at 23: on a well-formed "HH:MM"
input the result has hour min((HH*60+MM+d) div 60, 23) and minute
(HH*60+MM+d) mod 60; in particular "23:00" plus 60 minutes is again "23:00",
so a booking request starting at "23:00" for a 60-minute service loads an
empty slot interval (whenever every stored slot has start_time before
end_time) and fails with 404 instead of spilling into the next day. -/
theorem add_minutes_to_time_clamp_spec :
    (∀ h m d : Nat, h < 24 → m < 60 →
      add_minutes_to_time (pad2 h ++ ":" ++ pad2 m) d
        = pad2 (Nat.min ((h * 60 + m + d) / 60) 23) ++ ":" ++ pad2 ((h * 60 + m + d) % 60))
  ∧ add_minutes_to_time "23:00" 60 = "23:00"
  ∧ (∀ (chrono_date_ok : String → Bool) (db : Db) (uid : Int) (uname : Option String)
        (ufn : String) (req : CreateBookingRequest) (now : Nat) (new_id : Int)
        (payment : Option (String × String)) (svc : Service),
      chrono_date_ok req.date = true →
      req.start_time = "23:00" →
      db.services.find? (fun s => s.id == req.service_id && s.is_active) = some svc →
      svc.duration_min = 60 →
      (∀ s ∈ db.slots, s.start_time.data < s.end_time.data) →
      create_booking chrono_date_ok db uid uname ufn req now new_id payment
        = (db, .err .notFound)) := by
  refine ⟨fun h m d hh hm => add_minutes_pad2 h m d hh hm, by decide, ?_⟩
  intro chron db uid uname ufn req now nid pay svc hdate hst hsvc hdur hwf
  have htime : (req.start_time.utf8ByteSize == 5 && req.start_time.data.contains ':') = true := by
    rw [hst]; decide
  have hend : add_minutes_to_time req.start_time svc.duration_min.toNat = "23:00" := by
    rw [hst, hdur]; decide
  have hfil : db.slots.filter (fun s =>
      s.date == req.date && decide (req.start_time.data ≤ s.start_time.data)
        && decide (s.end_time.data
              ≤ (add_minutes_to_time req.start_time svc.duration_min.toNat).data)) = [] := by
    apply List.filter_eq_nil_iff.mpr
    intro s hsmem
    rw [hend, hst]
    intro hcontra
    simp only [Bool.and_eq_true, decide_eq_true_eq] at hcontra
    obtain ⟨⟨_, hle1⟩, hle2⟩ := hcontra
    exact absurd (lt_of_le_of_lt hle1 (hwf s hsmem)) (not_lt.mpr hle2)
  unfold create_booking
  rw [hdate, htime, hsvc]
  simp only [Bool.not_true, Bool.false_eq_true, if_false]
  rw [hfil, hdur]
  have hcond : ([] : List AvailableSlot).length < slots_needed_for_duration 60 := by decide
  rw [if_pos hcond]

/-- Witness for the clamp theorem: the general formula at hour 23, minute 0,
60 added minutes, and the 404 outcome at the concrete late-evening store. -/
theorem add_minutes_to_time_clamp_spec_witness :
    add_minutes_to_time (pad2 23 ++ ":" ++ pad2 0) 60
        = pad2 (Nat.min ((23 * 60 + 0 + 60) / 60) 23) ++ ":" ++ pad2 ((23 * 60 + 0 + 60) % 60)
  ∧ create_booking (fun _ => true) lateDb 10 none "U" lateReq 1000 7 none
      = (lateDb, .err .notFound) :=
  ⟨add_minutes_to_time_clamp_spec.1 23 0 60 (by decide) (by decide),
   add_minutes_to_time_clamp_spec.2.2 (fun _ => true) lateDb 10 none "U" lateReq 1000 7 none
     exService (by decide) (by decide) (by decide) (by decide) (by decide)⟩

/-- The sweep loop acts on the bookings and slots tables independently. -/
theorem expire_fold_split (ids : List Int) (db : Db) :
    ids.foldl (fun d bid =>
      let d1 := { d with bookings := d.bookings.map (fun (b : Booking) =>
        if b.id == bid && b.status == "pending_payment"
        then { b with status := "expired", payment_status := "none" } else b) }
      { d1 with slots := d1.slots.map (fun (s : AvailableSlot) =>
        if s.booking_id == some bid
        then { s with is_booked := false, booking_id := none } else s) }) db
    = { db with
        bookings := ids.foldl (fun l bid => l.map (fun (b : Booking) =>
          if b.id == bid && b.status == "pending_payment"
          then { b with status := "expired", payment_status := "none" } else b)) db.bookings,
        slots := ids.foldl (fun l bid => l.map (fun (s : AvailableSlot) =>
          if s.booking_id == some bid
          then { s with is_booked := false, booking_id := none } else s)) db.slots } := by
  induction ids generalizing db with
  | nil => rfl
  | cons bid rest ih => simp only [List.foldl_cons]; rw [ih]

/-- Closed form of the booking updates of the sweep: a booking row is expired
exactly when its id occurs in the id list and it is still pending_payment. -/
theorem expire_fold_bookings_eq (ids : List Int) (bs : List Booking) :
    ids.foldl (fun l bid => l.map (fun (b : Booking) =>
        if b.id == bid && b.status == "pending_payment"
        then { b with status := "expired", payment_status := "none" } else b)) bs
    = bs.map (fun b =>
        if ids.contains b.id && b.status == "pending_payment"
        then { b with status := "expired", payment_status := "none" } else b) := by
  induction ids generalizing bs with
  | nil => simp
  | cons bid rest ih =>
    rw [List.foldl_cons, ih, List.map_map]
    apply List.map_congr_left
    intro b _
    have hne : (("expired" : String) == "pending_payment") = false := by decide
    by_cases h1 : b.id = bid
    · by_cases h2 : b.status == "pending_payment" <;>
        simp [Function.comp, h1, h2, hne, List.contains_cons]
    · by_cases h2 : b.status == "pending_payment" <;>
        simp [Function.comp, h1, h2, List.contains_cons]

/-- Closed form of the slot updates of the sweep: a slot is released exactly
when its owning booking id occurs in the id list. -/
theorem expire_fold_slots_eq (ids : List Int) (ss : List AvailableSlot) :
    ids.foldl (fun l bid => l.map (fun (s : AvailableSlot) =>
        if s.booking_id == some bid
        then { s with is_booked := false, booking_id := none } else s)) ss
    = ss.map (fun s =>
        if (match s.booking_id with
            | some bid => ids.contains bid
            | none => false)
        then { s with is_booked := false, booking_id := none } else s) := by
  induction ids generalizing ss with
  | nil =>
    simp only [List.foldl_nil]
    have : ∀ s : AvailableSlot,
        (if (match s.booking_id with
             | some bid => ([] : List Int).contains bid
             | none => false)
         then { s with is_booked := false, booking_id := none } else s) = s := by
      intro s; cases s.booking_id <;> simp
    calc ss = ss.map id := (List.map_id ss).symm
      _ = _ := (List.map_congr_left (fun s _ => (this s).symm)).symm ▸ rfl
  | cons bid rest ih =>
    rw [List.foldl_cons, ih, List.map_map]
    apply List.map_congr_left
    intro s _
    cases hb : s.booking_id with
    | none => simp [Function.comp, hb]
    | some owner =>
      by_cases h1 : owner = bid
      · subst h1
        simp [Function.comp, hb, List.contains_cons]
      · simp [Function.comp, hb, List.contains_cons, h1]

/-- Membership in the mapped filter, phrased as a scan of the original list. -/
theorem contains_filter_map {α β : Type} [BEq β] (l : List α) (p : α → Bool) (f : α → β)
    (x : β) : ((l.filter p).map f).contains x = l.any (fun a => x == f a && p a) := by
  induction l with
  | nil => rfl
  | cons a l ih =>
    by_cases hp : p a <;>
      simp [List.filter_cons, hp, ih, List.any_cons, List.contains_cons]

/-- C9: one run of the expiry sweep turns exactly the pending_payment bookings
created more than PAYMENT_EXPIRY_MINUTES before now into expired / payment
none, leaves every other booking row unchanged, releases exactly the slots
owned by such a booking (is_booked cleared, booking_id nulled) and leaves
every other slot unchanged. Booking ids are assumed pairwise distinct, as the
primary key guarantees. -/
theorem expire_pending_payments_spec (db : Db) (now : Nat)
    (hnd : (db.bookings.map (·.id)).Nodup) :
    (expire_pending_payments db now).bookings = db.bookings.map (fun b =>
        if b.status == "pending_payment"
            && decide (b.created_at + PAYMENT_EXPIRY_MINUTES * 60 < now)
        then { b with status := "expired", payment_status := "none" } else b)
  ∧ (expire_pending_payments db now).slots = db.slots.map (fun s =>
        if db.bookings.any (fun b => s.booking_id == some b.id
            && (b.status == "pending_payment"
                && decide (b.created_at + PAYMENT_EXPIRY_MINUTES * 60 < now)))
        then { s with is_booked := false, booking_id := none } else s) := by
  unfold expire_pending_payments
  rw [expire_fold_split, expire_fold_bookings_eq, expire_fold_slots_eq]
  constructor
  · apply List.map_congr_left
    intro b hb
    by_cases h2 : b.status == "pending_payment"
    · by_cases h3 : decide (b.created_at + PAYMENT_EXPIRY_MINUTES * 60 < now) = true
      · have hmem : b.id ∈ (db.bookings.filter (fun b =>
            b.status == "pending_payment"
              && decide (b.created_at + PAYMENT_EXPIRY_MINUTES * 60 < now))).map (·.id) :=
          List.mem_map_of_mem _ (List.mem_filter.mpr ⟨hb, by simp [h2, h3]⟩)
        have hc : ((db.bookings.filter (fun b =>
            b.status == "pending_payment"
              && decide (b.created_at + PAYMENT_EXPIRY_MINUTES * 60 < now))).map
              (·.id)).contains b.id = true := List.elem_iff.mpr hmem
        rw [hc, h2, h3]
      · have hnc : b.id ∉ (db.bookings.filter (fun b =>
            b.status == "pending_payment"
              && decide (b.created_at + PAYMENT_EXPIRY_MINUTES * 60 < now))).map (·.id) := by
          intro hmem
          rcases List.mem_map.mp hmem with ⟨b2, hb2, hid⟩
          have hb2mem := (List.mem_filter.mp hb2).1
          have hp2 := (List.mem_filter.mp hb2).2
          have hbb : b2 = b := List.inj_on_of_nodup_map hnd hb2mem hb hid
          rw [hbb] at hp2
          simp only [Bool.and_eq_true] at hp2
          exact h3 hp2.2
        have hcf : ((db.bookings.filter (fun b =>
            b.status == "pending_payment"
              && decide (b.created_at + PAYMENT_EXPIRY_MINUTES * 60 < now))).map (·.id)).contains
              b.id = false := by simpa using hnc
        have h3f : decide (b.created_at + PAYMENT_EXPIRY_MINUTES * 60 < now) = false := by
          simpa using h3
        rw [hcf, h2, h3f]
        simp
    · simp [h2]
  · apply List.map_congr_left
    intro s _
    cases hbk : s.booking_id with
    | none =>
      have hany : db.bookings.any (fun b => (none : Option Int) == some b.id
          && (b.status == "pending_payment"
              && decide (b.created_at + PAYMENT_EXPIRY_MINUTES * 60 < now))) = false :=
        List.any_eq_false.mpr (by simp)
      simp [hbk, hany]
    | some owner =>
      have hmr : (match some owner with
          | some bid => ((db.bookings.filter (fun b =>
              b.status == "pending_payment"
                && decide (b.created_at + PAYMENT_EXPIRY_MINUTES * 60 < now))).map
                (·.id)).contains bid
          | none => false)
          = ((db.bookings.filter (fun b =>
              b.status == "pending_payment"
                && decide (b.created_at + PAYMENT_EXPIRY_MINUTES * 60 < now))).map
                (·.id)).contains owner := rfl
      rw [hmr, contains_filter_map]
      rfl

/-- Store for the sweep witness: booking 2 is pending_payment and stale,
booking 3 pending_payment but fresh, booking 4 confirmed; slots 1 and 2 are
owned by bookings 2 and 3. -/
def sweepDb : Db :=
  { services := [],
    slots := [{ id := 1, date := "2026-03-01", start_time := "10:00", end_time := "11:00",
                is_booked := true, booking_id := some 2 },
              { id := 2, date := "2026-03-01", start_time := "11:00", end_time := "12:00",
                is_booked := true, booking_id := some 3 },
              { id := 3, date := "2026-03-01", start_time := "12:00", end_time := "13:00",
                is_booked := false, booking_id := none }],
    bookings := [{ raceWinner with id := 2, created_at := 0 },
                 { raceWinner with id := 3, created_at := 1500 },
                 { adminPaidBooking with id := 4 }] }

/-- Witness for the sweep theorem at second 2000: only stale pending booking 2
expires and only its slot is released. -/
theorem expire_pending_payments_spec_witness :
    (expire_pending_payments sweepDb 2000).bookings = sweepDb.bookings.map (fun b =>
        if b.status == "pending_payment"
            && decide (b.created_at + PAYMENT_EXPIRY_MINUTES * 60 < 2000)
        then { b with status := "expired", payment_status := "none" } else b)
  ∧ (expire_pending_payments sweepDb 2000).slots = sweepDb.slots.map (fun s =>
        if sweepDb.bookings.any (fun b => s.booking_id == some b.id
            && (b.status == "pending_payment"
                && decide (b.created_at + PAYMENT_EXPIRY_MINUTES * 60 < 2000)))
        then { s with is_booked := false, booking_id := none } else s) :=
  expire_pending_payments_spec sweepDb 2000 (by decide)

/-- Invariance transport along a pointwise mutation of the slot table. -/
theorem slotInvAll_map {l : List AvailableSlot} {f : AvailableSlot → AvailableSlot}
    (hf : ∀ s : AvailableSlot, s.is_booked = s.booking_id.isSome →
      (f s).is_booked = (f s).booking_id.isSome)
    (h : ∀ s ∈ l, s.is_booked = s.booking_id.isSome) :
    ∀ s ∈ l.map f, s.is_booked = s.booking_id.isSome := by
  intro s hs
  rcases List.mem_map.mp hs with ⟨a, ha, rfl⟩
  exact hf a (h a ha)

/-- A conditional release update preserves the per-slot invariant. -/
theorem upd_free_preserves (c : AvailableSlot → Bool) :
    ∀ s : AvailableSlot, s.is_booked = s.booking_id.isSome →
      ((if c s then { s with is_booked := false, booking_id := none } else s).is_booked
        = (if c s then { s with is_booked := false, booking_id := none }
           else s).booking_id.isSome) := by
  intro s h
  by_cases hc : c s <;> simp [hc, h]

/-- A conditional claim update (set booked and owner together) preserves the
per-slot invariant. -/
theorem upd_claim_preserves (c : AvailableSlot → Bool) (bid : Int) :
    ∀ s : AvailableSlot, s.is_booked = s.booking_id.isSome →
      ((if c s then { s with is_booked := true, booking_id := some bid } else s).is_booked
        = (if c s then { s with is_booked := true, booking_id := some bid }
           else s).booking_id.isSome) := by
  intro s h
  by_cases hc : c s <;> simp [hc, h]

/-- free_booking_slots preserves the store invariant. -/
theorem free_booking_slots_inv (db : Db) (bid sid : Int) (h : SlotInvariant db) :
    SlotInvariant (free_booking_slots db bid sid) :=
  slotInvAll_map (upd_free_preserves _) (slotInvAll_map (upd_free_preserves _) h)

/-- The slot-lock loop preserves the store invariant. -/
theorem lock_slots_inv (db : Db) (bid : Int) (loaded : List AvailableSlot)
    (h : SlotInvariant db) : SlotInvariant (lock_slots db bid loaded) := by
  induction loaded generalizing db with
  | nil => exact h
  | cons a l ih =>
    have hstep : lock_slots db bid (a :: l)
        = lock_slots { db with slots := (claim_slot db.slots bid a.id).1 } bid l := rfl
    rw [hstep]
    exact ih _ (slotInvAll_map (upd_claim_preserves _ bid) h)

/-- rollback_booking preserves the store invariant. -/
theorem rollback_booking_inv (db : Db) (bid : Int) (loaded : List AvailableSlot)
    (h : SlotInvariant db) : SlotInvariant (rollback_booking db bid loaded) := by
  unfold rollback_booking
  induction loaded generalizing db with
  | nil => exact h
  | cons a l ih =>
    rw [List.foldl_cons]
    have := ih { db with slots := db.slots.map (fun s =>
      if s.id == a.id then { s with is_booked := false, booking_id := none } else s) }
      (slotInvAll_map (upd_free_preserves _) h)
    simpa using this

/-- create_booking_resume preserves the store invariant. -/
theorem create_booking_resume_inv (db : Db) (svc : Service) (uid : Int)
    (uname : Option String) (ufn : String) (req : CreateBookingRequest) (now : Nat)
    (new_id : Int) (payment : Option (String × String)) (loaded : List AvailableSlot)
    (h : SlotInvariant db) :
    SlotInvariant (create_booking_resume db svc uid uname ufn req now new_id
      payment loaded).1 := by
  unfold create_booking_resume
  cases payment with
  | none => exact rollback_booking_inv _ new_id loaded (lock_slots_inv _ new_id loaded h)
  | some pu =>
    cases pu with
    | mk pid url => exact lock_slots_inv _ new_id loaded h

/-- The store invariant only concerns the slot table. -/
theorem SlotInvariant_of_slots_eq {db1 db2 : Db} (he : db1.slots = db2.slots)
    (h : SlotInvariant db2) : SlotInvariant db1 := by
  unfold SlotInvariant at *
  rw [he]
  exact h

/-- create_booking preserves the store invariant on every path. -/
theorem create_booking_inv (chron : String → Bool) (db : Db) (uid : Int)
    (uname : Option String) (ufn : String) (req : CreateBookingRequest) (now : Nat)
    (nid : Int) (pay : Option (String × String)) (h : SlotInvariant db) :
    SlotInvariant (create_booking chron db uid uname ufn req now nid pay).1 := by
  unfold create_booking
  split
  · exact h
  · split
    · exact h
    · split
      · exact h
      · dsimp only
        split
        · exact h
        · split
          · exact h
          · exact create_booking_resume_inv _ _ uid uname ufn req now nid pay _ h

/-- Refund processing never touches the slot table. -/
theorem process_refund_slots_eq (db : Db) (bk : Booking) (ao : Bool) (hu : Int)
    (rok : Bool) : (process_refund_if_needed db bk ao hu rok).1.slots = db.slots := by
  unfold process_refund_if_needed
  split
  · rfl
  · split
    · split
      · split <;> rfl
      · rfl
    · rfl

/-- Client cancellation preserves the store invariant. -/
theorem cancel_booking_inv (db : Db) (uid id : Int) (now : Nat) (hu : Int) (rok : Bool)
    (h : SlotInvariant db) : SlotInvariant (cancel_booking db uid id now hu rok).1 := by
  unfold cancel_booking
  split
  · exact h
  · apply free_booking_slots_inv
    exact SlotInvariant_of_slots_eq (process_refund_slots_eq db _ false hu rok) h

/-- Admin cancellation preserves the store invariant. -/
theorem admin_cancel_booking_inv (db : Db) (id : Int) (now : Nat) (h : SlotInvariant db) :
    SlotInvariant (admin_cancel_booking db id now).1 := by
  unfold admin_cancel_booking
  split
  · exact h
  · exact slotInvAll_map (upd_free_preserves _) (slotInvAll_map (upd_free_preserves _) h)

/-- The webhook store effect preserves the store invariant. -/
theorem payment_webhook_db_inv (db : Db) (ev : String) (bid : Option Int)
    (h : SlotInvariant db) : SlotInvariant (payment_webhook_db db ev bid) := by
  unfold payment_webhook_db
  split
  · exact h
  · split
    · exact h
    · split
      · exact slotInvAll_map (upd_free_preserves _) h
      · exact h

/-- The expiry sweep preserves the store invariant. -/
theorem expire_pending_payments_inv (db : Db) (now : Nat) (h : SlotInvariant db) :
    SlotInvariant (expire_pending_payments db now) := by
  unfold expire_pending_payments SlotInvariant
  rw [expire_fold_split]
  show ∀ s ∈ _, _
  rw [show ({ db with
      bookings := _, slots := (((db.bookings.filter (fun b =>
        b.status == "pending_payment"
          && decide (b.created_at + PAYMENT_EXPIRY_MINUTES * 60 < now))).map (·.id)).foldl
        (fun l bid => l.map (fun (s : AvailableSlot) =>
          if s.booking_id == some bid
          then { s with is_booked := false, booking_id := none } else s)) db.slots) } : Db).slots
      = _ from rfl, expire_fold_slots_eq]
  exact slotInvAll_map (upd_free_preserves _) h

/-- Bulk slot insertion preserves the store invariant: new rows are created
free and unowned. -/
theorem create_slots_insert_inv (db : Db) (date : String) (ts : List (String × String))
    (nid : Int) (h : SlotInvariant db) : SlotInvariant (create_slots_insert db date ts nid) := by
  unfold create_slots_insert SlotInvariant at *
  intro s hs
  rcases List.mem_append.mp hs with hs | hs
  · exact h s hs
  · rcases List.mem_map.mp hs with ⟨p, hp, rfl⟩
    rfl

/-- Slot deletion preserves the store invariant. -/
theorem delete_slot_inv (db : Db) (id : Int) (h : SlotInvariant db) :
    SlotInvariant (delete_slot db id).1 := by
  unfold delete_slot
  split
  · exact h
  · split
    · exact h
    · intro s hs
      exact h s (List.mem_of_mem_filter hs)

/-- C2: the invariant "a slot is flagged booked exactly when it carries an
owning booking id" is preserved by every slot-touching operation of the
engine: booking creation (whose conditional claim sets the flag and the owner
together), the slot-release helper, the lock loop, the compensating rollback,
client and admin cancellation, both webhook events, the expiry sweep, bulk
slot insertion (rows are created free and unowned) and slot deletion. -/
theorem slot_invariant_preserved (db : Db) (hinv : SlotInvariant db) :
    (∀ (chron : String → Bool) (uid : Int) (uname : Option String) (ufn : String)
        (req : CreateBookingRequest) (now : Nat) (nid : Int)
        (pay : Option (String × String)),
      SlotInvariant (create_booking chron db uid uname ufn req now nid pay).1)
  ∧ (∀ bid sid : Int, SlotInvariant (free_booking_slots db bid sid))
  ∧ (∀ (bid : Int) (loaded : List AvailableSlot), SlotInvariant (lock_slots db bid loaded))
  ∧ (∀ (bid : Int) (loaded : List AvailableSlot),
      SlotInvariant (rollback_booking db bid loaded))
  ∧ (∀ (uid id : Int) (now : Nat) (hu : Int) (rok : Bool),
      SlotInvariant (cancel_booking db uid id now hu rok).1)
  ∧ (∀ (id : Int) (now : Nat), SlotInvariant (admin_cancel_booking db id now).1)
  ∧ (∀ (ev : String) (bid : Option Int), SlotInvariant (payment_webhook_db db ev bid))
  ∧ (∀ now : Nat, SlotInvariant (expire_pending_payments db now))
  ∧ (∀ (date : String) (ts : List (String × String)) (nid : Int),
      SlotInvariant (create_slots_insert db date ts nid))
  ∧ (∀ id : Int, SlotInvariant (delete_slot db id).1) :=
  ⟨fun chron uid uname ufn req now nid pay =>
      create_booking_inv chron db uid uname ufn req now nid pay hinv,
   fun bid sid => free_booking_slots_inv db bid sid hinv,
   fun bid loaded => lock_slots_inv db bid loaded hinv,
   fun bid loaded => rollback_booking_inv db bid loaded hinv,
   fun uid id now hu rok => cancel_booking_inv db uid id now hu rok hinv,
   fun id now => admin_cancel_booking_inv db id now hinv,
   fun ev bid => payment_webhook_db_inv db ev bid hinv,
   fun now => expire_pending_payments_inv db now hinv,
   fun date ts nid => create_slots_insert_inv db date ts nid hinv,
   fun id => delete_slot_inv db id hinv⟩

/-- Witness for the invariant theorem at a concrete invariant-satisfying store:
releasing the slots of booking 1 and processing a canceled-payment webhook
both keep the invariant. -/
theorem slot_invariant_preserved_witness :
    SlotInvariant (free_booking_slots adminDb 1 5)
  ∧ SlotInvariant (payment_webhook_db adminDb "payment.canceled" (some 1)) :=
  ⟨(slot_invariant_preserved adminDb (by unfold SlotInvariant; decide)).2.1 1 5,
   (slot_invariant_preserved adminDb
      (by unfold SlotInvariant; decide)).2.2.2.2.2.2.1 "payment.canceled" (some 1)⟩
